import Mathlib

/-!
Shallow embedding of the monitoring scheduler and check engine of
`src/daemon/worker.js` (UptimeKit-CLI).

The embedding follows the source file function by function:

* `mkCertInfo` embeds the certificate arithmetic of `checkSSLCertificate`
  (worker.js lines 32-46): `daysRemaining = Math.floor((validTo - now) / 86400000)`
  and `isValid = now >= validFrom && now <= validTo && daysRemaining > 0`.
  Timestamps are milliseconds since the epoch, as produced by JS `Date`
  subtraction.  The snapshot's string metadata (issuer, subject, serialNumber,
  fingerprint) plays no role in control flow and is omitted.
* `checkMonitor` embeds `checkMonitor(monitor)` (worker.js lines 63-180).
  The network is abstracted by a `CheckEnv` record describing the outcome of
  the one probe the call performs, the wall clock, the settings lookup and
  whether the two storage writes (`logHeartbeat`, `upsertSSLCertificate`)
  throw.  JS exceptions are modelled with `Except`: `probeMonitor` is the
  body of the `try` block (an `Except.error` is an exception reaching the
  `catch (error)` handler, which sets `status = 'down'` and re-measures the
  latency).  Note that in the source `upsertSSLCertificate` is called inside
  this `try` block, before `status` is assigned, while `logHeartbeat` has its
  own dedicated `try/catch`.
* `activeMonitors` (a JS `Map` from monitor id to a mutable record) is
  modelled as an insertion-ordered association list `MMap` with `mapGet`,
  `mapSet` and `mapModify` mirroring `Map.get` / `Map.set` / in-place field
  mutation of the stored record.
* `startMonitorLoop`, `processMonitor` (the per-monitor body of the second
  loop of `refreshMonitors`) and `refreshMonitors` embed the scheduler
  (worker.js lines 182-224).  Timer side effects (`setInterval`,
  `clearInterval`, the immediate `checkMonitor` call) are recorded as an
  explicit `SchedEvent` trace; `nextTimerId` supplies fresh timer handles.
  `listFails = true` models `getMonitors()` throwing, which is the first
  statement inside the `try` of `refreshMonitors`.
-/

namespace UptimeKit

/-- Check status, the JS strings `'up'` / `'down'`. -/
inductive Status
  | up
  | down
deriving DecidableEq, Repr

/-- A monitor row as read from storage.  `type` is the JS string tag
(`'http'`, `'icmp'`, `'dns'`, `'ssl'`); `interval` is in seconds. -/
structure Monitor where
  id : Nat
  type : String
  url : String
  interval : Nat
  name : String
deriving DecidableEq, Repr

/-- Milliseconds per day, the `1000 * 60 * 60 * 24` of worker.js line 35. -/
def msPerDay : Int := 86400000

/-- Certificate snapshot computed by `checkSSLCertificate` (worker.js lines
32-46).  Only the fields that feed control flow are kept; issuer, subject,
serial number and fingerprint are claim-irrelevant string metadata. -/
structure CertInfo where
  validFrom : Int
  validTo : Int
  daysRemaining : Int
  isValid : Bool
deriving DecidableEq, Repr

/-- The certificate arithmetic of `checkSSLCertificate` (worker.js lines
32-46): `daysRemaining = Math.floor((validTo - now) / 86400000)` (JS
`Math.floor` on an exact ratio of integers is flooring division, `Int.fdiv`)
and `isValid = now >= validFrom && now <= validTo && daysRemaining > 0`. -/
def mkCertInfo (validFrom validTo now : Int) : CertInfo :=
  let daysRemaining := Int.fdiv (validTo - now) msPerDay
  { validFrom := validFrom
    validTo := validTo
    daysRemaining := daysRemaining
    isValid := decide (validFrom ≤ now) && decide (now ≤ validTo) && decide (0 < daysRemaining) }

/-- One entry of the `activeMonitors` map (worker.js lines 188-192).  The JS
object is created without a `lastSSLNotifiedThreshold` property (reading it
gives `undefined`, coerced to `0` by `|| 0` on line 161); `none` models the
absent property.  `lastStatus` is `null` (`none`) until a check completes. -/
structure MonitorEntry where
  intervalId : Nat
  monitor : Monitor
  lastStatus : Option Status
  lastSSLNotifiedThreshold : Option Nat
deriving DecidableEq, Repr

/-- The `activeMonitors` JS `Map`, as an insertion-ordered association list. -/
abbrev MMap := List (Nat × MonitorEntry)

/-- `activeMonitors.get(k)`. -/
def mapGet : MMap → Nat → Option MonitorEntry
  | [], _ => none
  | p :: rest, k => if p.1 = k then some p.2 else mapGet rest k

/-- `activeMonitors.set(k, v)`: replace in place if present, else append. -/
def mapSet : MMap → Nat → MonitorEntry → MMap
  | [], k, v => [(k, v)]
  | p :: rest, k, v => if p.1 = k then (k, v) :: rest else p :: mapSet rest k v

/-- Mutation of the record stored at key `k` (the JS code mutates the object
returned by `activeMonitors.get(monitor.id)` in place). -/
def mapModify : MMap → Nat → (MonitorEntry → MonitorEntry) → MMap
  | [], _, _ => []
  | p :: rest, k, f =>
      if p.1 = k then (p.1, f p.2) :: mapModify rest k f else p :: mapModify rest k f

/-- A dispatched notification, named after the notifier entry points imported
on worker.js line 2 (`notifyMonitorDown`, `notifyMonitorUp`,
`notifySSLExpiring`, `notifySSLExpired`, `notifySSLValid`). -/
inductive NotifyEvent
  | monitorUp
  | monitorDown
  | sslValid
  | sslExpired
  | sslExpiring (daysRemaining : Int)
deriving DecidableEq, Repr

/-- The environment of one `checkMonitor` call: the outcome of the probe the
call performs, the wall clock, the settings lookup and whether the storage
writes throw.  `httpOutcome = some s` means axios resolved with HTTP status
`s` (with `validateStatus: () => true` axios never rejects on a status);
`none` means a transport error was thrown.  `icmpFails` models
`ping.promise.probe` rejecting; `icmpTime = none` models `res.time ===
'unknown'` (or an unparsable time), coerced to `0`.  `dnsOk = false` means
`dns.resolve` rejected.  `sslCertDates = some (validFrom, validTo)` means
`checkSSLCertificate` resolved with a certificate carrying those bounds;
`none` means it rejected (connection failure, timeout or absent
certificate).  `elapsed` and `elapsedCatch` are the values of
`Date.now() - start` at the measurement point inside the `try` block and
inside the `catch` block respectively. -/
structure CheckEnv where
  httpOutcome : Option Nat
  icmpFails : Bool
  icmpAlive : Bool
  icmpTime : Option Nat
  dnsOk : Bool
  sslCertDates : Option (Int × Int)
  now : Int
  notificationsEnabled : Bool
  heartbeatFails : Bool
  upsertFails : Bool
  elapsed : Nat
  elapsedCatch : Nat
deriving DecidableEq, Repr

/-- The observable outcome of one `checkMonitor` call: computed status and
latency, heartbeat rows successfully appended, certificate snapshots
successfully upserted, notifications dispatched (in dispatch order), the
`activeMonitors` map after the call, and the value of the
`monitor._sslCertInfo` expando property after the call. -/
structure CheckResult where
  status : Status
  latency : Nat
  heartbeats : List (Nat × Status × Nat)
  upserts : List (Nat × CertInfo)
  notifications : List NotifyEvent
  active : MMap
  sslCertInfo : Option CertInfo
deriving DecidableEq, Repr

/-- The `try` block of `checkMonitor` (worker.js lines 68-112): dispatch on
`monitor.type`, run the probe, and return `(status, latency, _sslCertInfo,
upserted snapshots)`; `Except.error` is a JS exception propagating to the
`catch (error)` handler.  For `'ssl'`, the order of the source is kept:
retrieve the certificate, measure latency, call `upsertSSLCertificate`
(which may throw — it is inside this `try`), then assign `status` from
`certInfo.isValid` and store `certInfo` on the monitor object.  A type
outside the four known tags leaves the initial `status = 'down'`,
`latency = 0` untouched. -/
def probeMonitor (m : Monitor) (sslPrev : Option CertInfo) (env : CheckEnv) :
    Except Unit (Status × Nat × Option CertInfo × List (Nat × CertInfo)) :=
  if m.type = "http" then
    match env.httpOutcome with
    | some s =>
        Except.ok ((if 200 ≤ s ∧ s < 300 then Status.up else Status.down), env.elapsed, sslPrev, [])
    | none => Except.error ()
  else if m.type = "icmp" then
    if env.icmpFails then Except.error ()
    else
      Except.ok ((if env.icmpAlive then Status.up else Status.down),
        env.icmpTime.getD 0, sslPrev, [])
  else if m.type = "dns" then
    if env.dnsOk then Except.ok (Status.up, env.elapsed, sslPrev, [])
    else Except.error ()
  else if m.type = "ssl" then
    match env.sslCertDates with
    | some d =>
        let certInfo := mkCertInfo d.1 d.2 env.now
        if env.upsertFails then Except.error ()
        else
          Except.ok ((if certInfo.isValid then Status.up else Status.down),
            env.elapsed, some certInfo, [(m.id, certInfo)])
    | none => Except.error ()
  else
    Except.ok (Status.down, 0, sslPrev, [])

/-- The `try/catch` around the probe: on an exception reaching the
`catch (error)` handler (worker.js lines 113-117) the check keeps
`status = 'down'`, re-measures `latency = Date.now() - start`, leaves
`monitor._sslCertInfo` untouched and has persisted nothing. -/
def probeOutcome (m : Monitor) (sslPrev : Option CertInfo) (env : CheckEnv) :
    Status × Nat × Option CertInfo × List (Nat × CertInfo) :=
  match probeMonitor m sslPrev env with
  | Except.ok r => r
  | Except.error _ => (Status.down, env.elapsedCatch, sslPrev, [])

/-- The event kind dispatched by the transition block of `checkMonitor`
(worker.js lines 135-152): for SSL monitors `ssl_expired` going down and
`ssl_valid` going up, for every other type `monitor_down` / `monitor_up`. -/
def transitionEvent (monitorType : String) (status : Status) : NotifyEvent :=
  if monitorType = "ssl" then
    match status with
    | Status.down => NotifyEvent.sslExpired
    | Status.up => NotifyEvent.sslValid
  else
    match status with
    | Status.down => NotifyEvent.monitorDown
    | Status.up => NotifyEvent.monitorUp

/-- The transition block of `checkMonitor` (worker.js lines 134-153): when
`previousStatus` is truthy (`null`, the initial value, is falsy), differs
from the new status, and `getNotificationSettings()` returns true, dispatch
exactly one transition event. -/
def transBlock (monitorType : String) (previousStatus : Option Status) (status : Status)
    (enabled : Bool) : List NotifyEvent :=
  match previousStatus with
  | some prev =>
      if prev ≠ status ∧ enabled = true then [transitionEvent monitorType status] else []
  | none => []

/-- The fixed escalation threshold list of worker.js line 164. -/
def sslThresholds : List Nat := [30, 14, 7, 3, 1]

/-- The SSL expiry escalation block of `checkMonitor` (worker.js lines
155-174): for an SSL monitor whose check produced a certificate snapshot and
`status === 'up'`, when notifications are enabled, scan `[30, 14, 7, 3, 1]`
for the first threshold `t` with
`days <= t && lastNotifiedThreshold < t` (the stored watermark read as
`monitorData?.lastSSLNotifiedThreshold || 0`); on a hit dispatch
`notifySSLExpiring(monitor, days)`, record the watermark to write, and
`break`.  Returns (watermark write, dispatched events). -/
def escalationBlock (monitorType : String) (status : Status) (enabled : Bool)
    (sslInfo : Option CertInfo) (lastThreshold : Option Nat) :
    Option Nat × List NotifyEvent :=
  if monitorType = "ssl" ∧ status = Status.up ∧ enabled = true then
    match sslInfo with
    | some info =>
        match sslThresholds.find? (fun u =>
            decide (info.daysRemaining ≤ Int.ofNat u) && decide (lastThreshold.getD 0 < u)) with
        | some t => (some t, [NotifyEvent.sslExpiring info.daysRemaining])
        | none => (none, [])
    | none => (none, [])
  else (none, [])

/-- Embedding of `checkMonitor(monitor)` (worker.js lines 63-180).

After the probe (`probeMonitor`, with the `catch` handler supplying
`status = 'down'` and `latency = Date.now() - start` on an exception), the
source reads `monitorData = activeMonitors.get(monitor.id)` and
`previousStatus = monitorData?.lastStatus`, appends the heartbeat inside its
own `try/catch`, dispatches a transition notification when `previousStatus`
is truthy, differs from `status`, and `getNotificationSettings()` is true,
then — for SSL monitors with a certificate snapshot and `status === 'up'`,
when notifications are enabled — scans `[30, 14, 7, 3, 1]` for the first
threshold `t` with `days <= t && lastNotifiedThreshold < t`, dispatching
`notifySSLExpiring(monitor, days)` and writing
`monitorData.lastSSLNotifiedThreshold = t` before breaking, and finally
writes `monitorData.lastStatus = status` when `monitorData` exists.  All of
this tail runs without suspension, so the map read once is the map written. -/
def checkMonitor (m : Monitor) (sslPrev : Option CertInfo) (env : CheckEnv)
    (active : MMap) : CheckResult :=
  let res := probeOutcome m sslPrev env
  let status := res.1
  let latency := res.2.1
  let sslInfo := res.2.2.1
  let upserts := res.2.2.2
  let monitorData := mapGet active m.id
  let previousStatus := monitorData.bind (fun d => d.lastStatus)
  let heartbeats := if env.heartbeatFails then [] else [(m.id, status, latency)]
  let transNotifs := transBlock m.type previousStatus status env.notificationsEnabled
  let esc := escalationBlock m.type status env.notificationsEnabled sslInfo
    (monitorData.bind (fun d => d.lastSSLNotifiedThreshold))
  let activeOut : MMap :=
    match monitorData with
    | none => active
    | some _ =>
        mapModify active m.id (fun e =>
          let e1 := match esc.1 with
            | some t => { e with lastSSLNotifiedThreshold := some t }
            | none => e
          { e1 with lastStatus := some status })
  { status := status
    latency := latency
    heartbeats := heartbeats
    upserts := upserts
    notifications := transNotifs ++ esc.2
    active := activeOut
    sslCertInfo := sslInfo }

/-- Whether an event comes from the transition block of `checkMonitor`
(every kind except the escalation kind `ssl_expiring`). -/
def NotifyEvent.isTransition : NotifyEvent → Bool
  | NotifyEvent.sslExpiring _ => false
  | _ => true

/-- The transition notifications dispatched by a check. -/
def transitionNotifs (r : CheckResult) : List NotifyEvent :=
  r.notifications.filter NotifyEvent.isTransition

/-- The `ssl_expiring` escalation notifications dispatched by a check. -/
def expiringNotifs (r : CheckResult) : List NotifyEvent :=
  r.notifications.filter (fun e => !(NotifyEvent.isTransition e))

/-- A timer side effect of the scheduler, recorded as an explicit trace:
`immediateCheck` is the un-awaited `checkMonitor(monitor)` call at the top of
`startMonitorLoop`, `timerStarted` is `setInterval(..., interval * 1000)`
returning the fresh handle `timerId`, and `timerCancelled` is
`clearInterval(handle)`. -/
inductive SchedEvent
  | immediateCheck (monitorId : Nat)
  | timerStarted (timerId : Nat) (monitorId : Nat) (intervalSeconds : Nat)
  | timerCancelled (timerId : Nat)
deriving DecidableEq, Repr

/-- Scheduler state: the `activeMonitors` map plus a supply of fresh timer
handles standing in for the opaque ids returned by `setInterval`. -/
structure SchedState where
  active : MMap
  nextTimerId : Nat
deriving DecidableEq, Repr

/-- Embedding of `startMonitorLoop(monitor, initialStatus = null)` (worker.js
lines 182-194): run one check immediately (recorded as `immediateCheck`; its
effects happen asynchronously and are modelled by `checkMonitor`), start the
periodic timer, and store `{ intervalId, monitor, lastStatus: initialStatus }`
— with no `lastSSLNotifiedThreshold` property — under `monitor.id`. -/
def startMonitorLoop (st : SchedState) (m : Monitor) (initialStatus : Option Status) :
    SchedState × List SchedEvent :=
  ({ active := mapSet st.active m.id
       { intervalId := st.nextTimerId
         monitor := m
         lastStatus := initialStatus
         lastSSLNotifiedThreshold := none }
     nextTimerId := st.nextTimerId + 1 },
   [SchedEvent.immediateCheck m.id, SchedEvent.timerStarted st.nextTimerId m.id m.interval])

/-- Whether the stored monitor snapshot agrees with a freshly listed row on
the three fields compared by `refreshMonitors` (worker.js line 214):
`interval`, `url` and `type`. -/
def entryMatches (e : MonitorEntry) (m : Monitor) : Prop :=
  e.monitor.interval = m.interval ∧ e.monitor.url = m.url ∧ e.monitor.type = m.type

instance (e : MonitorEntry) (m : Monitor) : Decidable (entryMatches e m) := by
  unfold entryMatches; infer_instance

/-- The body of the second loop of `refreshMonitors` (worker.js lines
209-220) for one listed monitor: if it is not active, start a loop with the
default `initialStatus = null`; if it is active and `interval`, `url` or
`type` changed, cancel the old timer and restart the loop carrying
`current.lastStatus`; otherwise do nothing. -/
def processMonitor (st : SchedState) (m : Monitor) : SchedState × List SchedEvent :=
  match mapGet st.active m.id with
  | none => startMonitorLoop st m none
  | some cur =>
      if entryMatches cur m then (st, [])
      else
        let r := startMonitorLoop st m cur.lastStatus
        (r.1, SchedEvent.timerCancelled cur.intervalId :: r.2)

/-- The second loop of `refreshMonitors`, folded over the listed monitors. -/
def refreshAdd (st : SchedState) : List Monitor → SchedState × List SchedEvent
  | [] => (st, [])
  | m :: rest =>
      let r := processMonitor st m
      let r2 := refreshAdd r.1 rest
      (r2.1, r.2 ++ r2.2)

/-- Embedding of `refreshMonitors()` (worker.js lines 196-224).  The whole
body sits in a `try/catch`; `getMonitors()` is its first statement, so
`listFails = true` (storage throwing on the list query) reaches the `catch`
before any state is touched and the tick is a no-op.  Otherwise the first
loop deletes (and `clearInterval`s) every active entry whose id is not in the
fresh list, and the second loop (`refreshAdd`) starts, restarts or keeps each
listed monitor. -/
def refreshMonitors (monitors : List Monitor) (st : SchedState) (listFails : Bool) :
    SchedState × List SchedEvent :=
  if listFails then (st, [])
  else
    let ids := monitors.map (fun m => m.id)
    let removed := st.active.filter (fun p => ¬ p.1 ∈ ids)
    let cancelEvs := removed.map (fun p => SchedEvent.timerCancelled p.2.intervalId)
    let st1 : SchedState := { st with active := st.active.filter (fun p => p.1 ∈ ids) }
    let r := refreshAdd st1 monitors
    (r.1, cancelEvs ++ r.2)

/-- The moment (ms after scheduling) at which invocation `k` of
`checkMonitor` for monitor `m` begins under `startMonitorLoop` (worker.js
lines 182-187): invocation 0 is the immediate call, and `setInterval` fires
the callback every `interval * 1000` ms.  The callback
`() => { checkMonitor(monitor); }` does not await the promise returned by
`checkMonitor`, so invocation `k` begins at `k * interval * 1000` whether or
not earlier invocations have completed. -/
def checkStartTime (m : Monitor) (k : Nat) : Nat := k * (m.interval * 1000)

/-- Given per-invocation durations `d`, invocation `j` is in flight during
`[checkStartTime m j, checkStartTime m j + d j)`.  This predicate states
that no later invocation begins before an earlier one has finished. -/
def checksNeverOverlap (m : Monitor) (d : Nat → Nat) : Prop :=
  ∀ j k : Nat, j < k → checkStartTime m j + d j ≤ checkStartTime m k

/-- Number of `timerStarted` events for a given monitor id in a trace. -/
def startsFor (id : Nat) (evs : List SchedEvent) : Nat :=
  (evs.filter (fun e =>
    match e with
    | SchedEvent.timerStarted _ mid _ => mid == id
    | _ => false)).length

/-- Number of `immediateCheck` events for a given monitor id in a trace. -/
def checksFor (id : Nat) (evs : List SchedEvent) : Nat :=
  (evs.filter (fun e =>
    match e with
    | SchedEvent.immediateCheck mid => mid == id
    | _ => false)).length

/-! ### Basic lemmas about the embedded operations -/

theorem checkMonitor_status (m : Monitor) (p : Option CertInfo) (env : CheckEnv) (a : MMap) :
    (checkMonitor m p env a).status = (probeOutcome m p env).1 := rfl

theorem checkMonitor_latency (m : Monitor) (p : Option CertInfo) (env : CheckEnv) (a : MMap) :
    (checkMonitor m p env a).latency = (probeOutcome m p env).2.1 := rfl

theorem checkMonitor_sslCertInfo (m : Monitor) (p : Option CertInfo) (env : CheckEnv) (a : MMap) :
    (checkMonitor m p env a).sslCertInfo = (probeOutcome m p env).2.2.1 := rfl

theorem checkMonitor_upserts (m : Monitor) (p : Option CertInfo) (env : CheckEnv) (a : MMap) :
    (checkMonitor m p env a).upserts = (probeOutcome m p env).2.2.2 := rfl

theorem checkMonitor_heartbeats (m : Monitor) (p : Option CertInfo) (env : CheckEnv) (a : MMap) :
    (checkMonitor m p env a).heartbeats =
      (if env.heartbeatFails then []
       else [(m.id, (probeOutcome m p env).1, (probeOutcome m p env).2.1)]) := rfl

theorem checkMonitor_notifications (m : Monitor) (p : Option CertInfo) (env : CheckEnv)
    (a : MMap) :
    (checkMonitor m p env a).notifications =
      transBlock m.type ((mapGet a m.id).bind (fun d => d.lastStatus)) (probeOutcome m p env).1
          env.notificationsEnabled
        ++ (escalationBlock m.type (probeOutcome m p env).1 env.notificationsEnabled
            (probeOutcome m p env).2.2.1
            ((mapGet a m.id).bind (fun d => d.lastSSLNotifiedThreshold))).2 := rfl

theorem checkMonitor_active_none (m : Monitor) (p : Option CertInfo) (env : CheckEnv) (a : MMap)
    (h : mapGet a m.id = none) : (checkMonitor m p env a).active = a := by
  unfold checkMonitor
  simp only [h]

theorem checkMonitor_active_some (m : Monitor) (p : Option CertInfo) (env : CheckEnv) (a : MMap)
    (e : MonitorEntry) (h : mapGet a m.id = some e) :
    (checkMonitor m p env a).active =
      mapModify a m.id (fun e0 =>
        let e1 := match (escalationBlock m.type (probeOutcome m p env).1
            env.notificationsEnabled (probeOutcome m p env).2.2.1
            ((mapGet a m.id).bind (fun d => d.lastSSLNotifiedThreshold))).1 with
          | some t => { e0 with lastSSLNotifiedThreshold := some t }
          | none => e0
        { e1 with lastStatus := some (probeOutcome m p env).1 }) := by
  unfold checkMonitor
  simp only [h]

theorem env_heartbeat_irrel (m : Monitor) (p : Option CertInfo) (env : CheckEnv) (b : Bool) :
    probeOutcome m p { env with heartbeatFails := b } = probeOutcome m p env := rfl

theorem isTransition_transitionEvent (t : String) (s : Status) :
    (transitionEvent t s).isTransition = true := by
  unfold transitionEvent
  split
  · cases s <;> rfl
  · cases s <;> rfl

theorem filter_isTransition_transBlock (t : String) (prev : Option Status) (s : Status)
    (en : Bool) :
    (transBlock t prev s en).filter NotifyEvent.isTransition = transBlock t prev s en := by
  cases prev with
  | none => rfl
  | some q =>
      by_cases h : q ≠ s ∧ en = true
      · simp [transBlock, h, isTransition_transitionEvent]
      · simp [transBlock, h]

theorem filter_notTransition_transBlock (t : String) (prev : Option Status) (s : Status)
    (en : Bool) :
    (transBlock t prev s en).filter (fun e => !(NotifyEvent.isTransition e)) = [] := by
  cases prev with
  | none => rfl
  | some q =>
      by_cases h : q ≠ s ∧ en = true
      · simp [transBlock, h, isTransition_transitionEvent]
      · simp [transBlock, h]

theorem filter_isTransition_escalation (t : String) (s : Status) (en : Bool)
    (so : Option CertInfo) (lt : Option Nat) :
    (escalationBlock t s en so lt).2.filter NotifyEvent.isTransition = [] := by
  unfold escalationBlock
  split
  · split
    · split <;> rfl
    · rfl
  · rfl

theorem filter_notTransition_escalation (t : String) (s : Status) (en : Bool)
    (so : Option CertInfo) (lt : Option Nat) :
    (escalationBlock t s en so lt).2.filter (fun e => !(NotifyEvent.isTransition e)) =
      (escalationBlock t s en so lt).2 := by
  unfold escalationBlock
  split
  · split
    · split <;> rfl
    · rfl
  · rfl

theorem mapGet_mapSet_self (a : MMap) (k : Nat) (v : MonitorEntry) :
    mapGet (mapSet a k v) k = some v := by
  induction a with
  | nil => simp [mapSet, mapGet]
  | cons p rest ih =>
      by_cases h : p.1 = k
      · simp [mapSet, mapGet, h]
      · simp [mapSet, mapGet, h, ih]

theorem mapGet_mapSet_ne (a : MMap) (k j : Nat) (v : MonitorEntry) (h : j ≠ k) :
    mapGet (mapSet a k v) j = mapGet a j := by
  induction a with
  | nil => simp [mapSet, mapGet, Ne.symm h]
  | cons p rest ih =>
      by_cases hp : p.1 = k
      · simp [mapSet, mapGet, hp, Ne.symm h]
      · simp [mapSet, mapGet, hp, ih]

theorem mapGet_mapModify_self (a : MMap) (k : Nat) (f : MonitorEntry → MonitorEntry) :
    mapGet (mapModify a k f) k = (mapGet a k).map f := by
  induction a with
  | nil => simp [mapModify, mapGet]
  | cons p rest ih =>
      by_cases h : p.1 = k
      · simp [mapModify, mapGet, h]
      · simp [mapModify, mapGet, h, ih]

theorem mapGet_mapModify_ne (a : MMap) (k j : Nat) (f : MonitorEntry → MonitorEntry)
    (h : j ≠ k) : mapGet (mapModify a k f) j = mapGet a j := by
  induction a with
  | nil => simp [mapModify, mapGet]
  | cons p rest ih =>
      by_cases hp : p.1 = k
      · simp [mapModify, mapGet, hp, Ne.symm h, ih]
      · simp [mapModify, mapGet, hp, ih]

theorem mem_mapGet_isSome (a : MMap) (p : Nat × MonitorEntry) (h : p ∈ a) :
    (mapGet a p.1).isSome = true := by
  induction a with
  | nil => cases h
  | cons q rest ih =>
      by_cases hq : q.1 = p.1
      · simp [mapGet, hq]
      · rcases List.mem_cons.mp h with h1 | h1
        · subst h1
          simp at hq
        · simp [mapGet, hq, ih h1]

theorem mapGet_filterKeys_mem (a : MMap) (ids : List Nat) (k : Nat) (h : k ∈ ids) :
    mapGet (a.filter (fun p => p.1 ∈ ids)) k = mapGet a k := by
  induction a with
  | nil => rfl
  | cons p rest ih =>
      by_cases hp : p.1 ∈ ids
      · by_cases hk : p.1 = k
        · simp [List.filter_cons, hp, mapGet, hk, h]
        · simp [List.filter_cons, hp, mapGet, hk, ih]
      · have hk : p.1 ≠ k := fun hh => hp (hh ▸ h)
        simp [List.filter_cons, hp, mapGet, hk, ih]

theorem mapGet_filterKeys_not_mem (a : MMap) (ids : List Nat) (k : Nat) (h : k ∉ ids) :
    mapGet (a.filter (fun p => p.1 ∈ ids)) k = none := by
  induction a with
  | nil => rfl
  | cons p rest ih =>
      by_cases hp : p.1 ∈ ids
      · have hk : p.1 ≠ k := fun hh => h (hh ▸ hp)
        simp [List.filter_cons, hp, mapGet, hk, ih]
      · simp [List.filter_cons, hp, mapGet, ih]

/-- The transition notifications of a check are exactly what the transition
block dispatches. -/
theorem transitionNotifs_checkMonitor (m : Monitor) (p : Option CertInfo) (env : CheckEnv)
    (a : MMap) :
    transitionNotifs (checkMonitor m p env a) =
      transBlock m.type ((mapGet a m.id).bind (fun d => d.lastStatus)) (probeOutcome m p env).1
        env.notificationsEnabled := by
  unfold transitionNotifs
  rw [checkMonitor_notifications, List.filter_append, filter_isTransition_transBlock,
    filter_isTransition_escalation, List.append_nil]

/-- The escalation notifications of a check are exactly what the escalation
block dispatches. -/
theorem expiringNotifs_checkMonitor (m : Monitor) (p : Option CertInfo) (env : CheckEnv)
    (a : MMap) :
    expiringNotifs (checkMonitor m p env a) =
      (escalationBlock m.type (probeOutcome m p env).1 env.notificationsEnabled
        (probeOutcome m p env).2.2.1
        ((mapGet a m.id).bind (fun d => d.lastSSLNotifiedThreshold))).2 := by
  unfold expiringNotifs
  rw [checkMonitor_notifications, List.filter_append, filter_notTransition_transBlock,
    filter_notTransition_escalation, List.nil_append]

theorem processMonitor_get_ne (st : SchedState) (m : Monitor) (k : Nat) (h : k ≠ m.id) :
    mapGet (processMonitor st m).1.active k = mapGet st.active k := by
  unfold processMonitor startMonitorLoop
  cases hg : mapGet st.active m.id with
  | none => simp [mapGet_mapSet_ne _ _ _ _ h]
  | some cur =>
      by_cases hm : entryMatches cur m
      · simp [hm]
      · simp [hm, mapGet_mapSet_ne _ _ _ _ h]

theorem processMonitor_get_self (st : SchedState) (m : Monitor) :
    ∃ e, mapGet (processMonitor st m).1.active m.id = some e ∧ entryMatches e m := by
  unfold processMonitor startMonitorLoop
  cases hg : mapGet st.active m.id with
  | none =>
      simp [mapGet_mapSet_self]
      exact ⟨rfl, rfl, rfl⟩
  | some cur =>
      by_cases hm : entryMatches cur m
      · refine ⟨cur, ?_, hm⟩
        simp [hm, hg]
      · simp [hm, mapGet_mapSet_self]
        exact ⟨rfl, rfl, rfl⟩

theorem processMonitor_noop (st : SchedState) (m : Monitor) (cur : MonitorEntry)
    (h : mapGet st.active m.id = some cur) (hm : entryMatches cur m) :
    processMonitor st m = (st, []) := by
  unfold processMonitor
  rw [h]
  simp [hm]

theorem processMonitor_fresh (st : SchedState) (m : Monitor)
    (h : mapGet st.active m.id = none) :
    processMonitor st m =
      ({ active := mapSet st.active m.id
           { intervalId := st.nextTimerId, monitor := m, lastStatus := none,
             lastSSLNotifiedThreshold := none }
         nextTimerId := st.nextTimerId + 1 },
       [SchedEvent.immediateCheck m.id,
        SchedEvent.timerStarted st.nextTimerId m.id m.interval]) := by
  unfold processMonitor startMonitorLoop
  rw [h]

theorem startsFor_append (id : Nat) (a b : List SchedEvent) :
    startsFor id (a ++ b) = startsFor id a + startsFor id b := by
  unfold startsFor
  rw [List.filter_append, List.length_append]

theorem checksFor_append (id : Nat) (a b : List SchedEvent) :
    checksFor id (a ++ b) = checksFor id a + checksFor id b := by
  unfold checksFor
  rw [List.filter_append, List.length_append]

theorem startsFor_processMonitor_ne (st : SchedState) (m : Monitor) (id : Nat)
    (h : m.id ≠ id) : startsFor id (processMonitor st m).2 = 0 := by
  unfold processMonitor startMonitorLoop
  cases hg : mapGet st.active m.id with
  | none => simp [startsFor, h]
  | some cur =>
      by_cases hm : entryMatches cur m
      · simp [hm, startsFor]
      · simp [hm, startsFor, h]

theorem checksFor_processMonitor_ne (st : SchedState) (m : Monitor) (id : Nat)
    (h : m.id ≠ id) : checksFor id (processMonitor st m).2 = 0 := by
  unfold processMonitor startMonitorLoop
  cases hg : mapGet st.active m.id with
  | none => simp [checksFor, h]
  | some cur =>
      by_cases hm : entryMatches cur m
      · simp [hm, checksFor]
      · simp [hm, checksFor, h]

theorem refreshAdd_get_ne (ms : List Monitor) :
    ∀ (st : SchedState) (k : Nat), (∀ m ∈ ms, m.id ≠ k) →
    mapGet (refreshAdd st ms).1.active k = mapGet st.active k := by
  induction ms with
  | nil => intro st k _; rfl
  | cons m0 rest ih =>
      intro st k h
      simp only [refreshAdd]
      rw [ih (processMonitor st m0).1 k (fun m hm => h m (List.mem_cons_of_mem _ hm)),
        processMonitor_get_ne st m0 k (Ne.symm (h m0 (List.mem_cons_self _ _)))]

theorem startsFor_refreshAdd_zero (ms : List Monitor) :
    ∀ (st : SchedState) (id : Nat), (∀ m ∈ ms, m.id ≠ id) →
    startsFor id (refreshAdd st ms).2 = 0 := by
  induction ms with
  | nil => intro st id _; rfl
  | cons m0 rest ih =>
      intro st id h
      simp only [refreshAdd]
      rw [startsFor_append,
        startsFor_processMonitor_ne st m0 id (h m0 (List.mem_cons_self _ _)),
        ih (processMonitor st m0).1 id (fun m hm => h m (List.mem_cons_of_mem _ hm))]

theorem checksFor_refreshAdd_zero (ms : List Monitor) :
    ∀ (st : SchedState) (id : Nat), (∀ m ∈ ms, m.id ≠ id) →
    checksFor id (refreshAdd st ms).2 = 0 := by
  induction ms with
  | nil => intro st id _; rfl
  | cons m0 rest ih =>
      intro st id h
      simp only [refreshAdd]
      rw [checksFor_append,
        checksFor_processMonitor_ne st m0 id (h m0 (List.mem_cons_self _ _)),
        ih (processMonitor st m0).1 id (fun m hm => h m (List.mem_cons_of_mem _ hm))]

theorem nodup_head_ne (m0 : Monitor) (rest : List Monitor) (m : Monitor)
    (hnd : ((m0 :: rest).map (fun x => x.id)).Nodup) (hm : m ∈ rest) : m0.id ≠ m.id := by
  have h : (∀ x ∈ rest, ¬ x.id = m0.id) ∧ (rest.map (fun x => x.id)).Nodup := by
    simpa using hnd
  intro heq
  exact h.1 m hm heq.symm

theorem nodup_tail_ids (m0 : Monitor) (rest : List Monitor)
    (hnd : ((m0 :: rest).map (fun x => x.id)).Nodup) :
    (rest.map (fun x => x.id)).Nodup := by
  have h : (∀ x ∈ rest, ¬ x.id = m0.id) ∧ (rest.map (fun x => x.id)).Nodup := by
    simpa using hnd
  exact h.2

theorem refreshAdd_get_matches (ms : List Monitor) :
    ∀ (st : SchedState) (m : Monitor), (ms.map (fun x => x.id)).Nodup → m ∈ ms →
    ∃ e, mapGet (refreshAdd st ms).1.active m.id = some e ∧ entryMatches e m := by
  induction ms with
  | nil => intro st m _ hm; cases hm
  | cons m0 rest ih =>
      intro st m hnd hm
      simp only [refreshAdd]
      rcases List.mem_cons.mp hm with rfl | hmr
      · obtain ⟨e, he, hme⟩ := processMonitor_get_self st m
        have hnotin : ∀ m' ∈ rest, m'.id ≠ m.id := by
          intro m' hm' heq
          exact nodup_head_ne m rest m' hnd hm' heq.symm
        rw [refreshAdd_get_ne rest (processMonitor st m).1 m.id hnotin]
        exact ⟨e, he, hme⟩
      · exact ih (processMonitor st m0).1 m (nodup_tail_ids m0 rest hnd) hmr

theorem refreshAdd_noop (ms : List Monitor) :
    ∀ st : SchedState,
    (∀ m ∈ ms, ∃ e, mapGet st.active m.id = some e ∧ entryMatches e m) →
    refreshAdd st ms = (st, []) := by
  induction ms with
  | nil => intro st _; rfl
  | cons m0 rest ih =>
      intro st h
      obtain ⟨e, he, hme⟩ := h m0 (List.mem_cons_self _ _)
      have hp := processMonitor_noop st m0 e he hme
      have hr := ih st (fun m hm => h m (List.mem_cons_of_mem _ hm))
      simp only [refreshAdd, hp, hr]
      rfl

theorem refreshAdd_fresh (ms : List Monitor) :
    ∀ (st : SchedState) (m : Monitor), (ms.map (fun x => x.id)).Nodup → m ∈ ms →
    mapGet st.active m.id = none →
    (∃ tid, mapGet (refreshAdd st ms).1.active m.id =
        some { intervalId := tid, monitor := m, lastStatus := none,
               lastSSLNotifiedThreshold := none })
    ∧ startsFor m.id (refreshAdd st ms).2 = 1
    ∧ checksFor m.id (refreshAdd st ms).2 = 1 := by
  induction ms with
  | nil => intro st m _ hm; cases hm
  | cons m0 rest ih =>
      intro st m hnd hm habs
      rcases List.mem_cons.mp hm with rfl | hmr
      · have hpf := processMonitor_fresh st m habs
        have hnotin : ∀ m' ∈ rest, m'.id ≠ m.id := by
          intro m' hm' heq
          exact nodup_head_ne m rest m' hnd hm' heq.symm
        refine ⟨⟨st.nextTimerId, ?_⟩, ?_, ?_⟩
        · simp only [refreshAdd]
          rw [refreshAdd_get_ne rest (processMonitor st m).1 m.id hnotin, hpf]
          exact mapGet_mapSet_self st.active m.id _
        · simp only [refreshAdd]
          rw [startsFor_append,
            startsFor_refreshAdd_zero rest (processMonitor st m).1 m.id hnotin, hpf]
          simp [startsFor]
        · simp only [refreshAdd]
          rw [checksFor_append,
            checksFor_refreshAdd_zero rest (processMonitor st m).1 m.id hnotin, hpf]
          simp [checksFor]
      · have hnd' : (rest.map (fun x => x.id)).Nodup := nodup_tail_ids m0 rest hnd
        have hne : m0.id ≠ m.id := nodup_head_ne m0 rest m hnd hmr
        have habs2 : mapGet (processMonitor st m0).1.active m.id = none := by
          rw [processMonitor_get_ne st m0 m.id (Ne.symm hne)]
          exact habs
        have hrest := ih (processMonitor st m0).1 m hnd' hmr habs2
        refine ⟨?_, ?_, ?_⟩
        · simp only [refreshAdd]
          exact hrest.1
        · simp only [refreshAdd]
          rw [startsFor_append, startsFor_processMonitor_ne st m0 m.id hne, hrest.2.1]
        · simp only [refreshAdd]
          rw [checksFor_append, checksFor_processMonitor_ne st m0 m.id hne, hrest.2.2]

theorem transitionEvent_eq (t : String) (s : Status) :
    transitionEvent t s =
      if t = "ssl" then
        (if s = Status.down then NotifyEvent.sslExpired else NotifyEvent.sslValid)
      else
        (if s = Status.down then NotifyEvent.monitorDown else NotifyEvent.monitorUp) := by
  unfold transitionEvent
  cases s <;> simp

/-! ### Claim theorems -/

/-- Claim C1: a transition notification is dispatched by `checkMonitor` if
and only if the previously recorded status in the monitor's active state is
defined, differs from the newly computed status, and notifications are
globally enabled; the dispatched event is `ssl_expired` / `ssl_valid` for
SSL monitors and `monitor_down` / `monitor_up` for all other types, and on a
status change exactly one is dispatched.  In particular a first check (no
recorded status) never dispatches one, and identical consecutive statuses
never dispatch one. -/
theorem claim_C1 (m : Monitor) (sslPrev : Option CertInfo) (env : CheckEnv) (active : MMap) :
    (transitionNotifs (checkMonitor m sslPrev env active) ≠ [] ↔
      ∃ p, (mapGet active m.id).bind (fun d => d.lastStatus) = some p
        ∧ p ≠ (checkMonitor m sslPrev env active).status ∧ env.notificationsEnabled = true)
    ∧ (∀ p, (mapGet active m.id).bind (fun d => d.lastStatus) = some p →
        p ≠ (checkMonitor m sslPrev env active).status → env.notificationsEnabled = true →
        transitionNotifs (checkMonitor m sslPrev env active) =
          [if m.type = "ssl" then
             (if (checkMonitor m sslPrev env active).status = Status.down then
               NotifyEvent.sslExpired
              else NotifyEvent.sslValid)
           else
             (if (checkMonitor m sslPrev env active).status = Status.down then
               NotifyEvent.monitorDown
              else NotifyEvent.monitorUp)])
    ∧ ((mapGet active m.id).bind (fun d => d.lastStatus) = none →
        transitionNotifs (checkMonitor m sslPrev env active) = [])
    ∧ (∀ p, (mapGet active m.id).bind (fun d => d.lastStatus) = some p →
        p = (checkMonitor m sslPrev env active).status →
        transitionNotifs (checkMonitor m sslPrev env active) = []) := by
  rw [checkMonitor_status, transitionNotifs_checkMonitor]
  cases hpv : (mapGet active m.id).bind (fun d => d.lastStatus) with
  | none => simp [transBlock]
  | some q =>
      by_cases hq : q = (probeOutcome m sslPrev env).1
      · subst hq
        simp [transBlock]
      · cases hen : env.notificationsEnabled
        · simp [transBlock, hq, hen]
        · refine ⟨?_, ?_, ?_, ?_⟩
          · simp [transBlock, hq]
          · intro p hp _ _
            have hpq : p = q := by
              cases hp
              rfl
            subst hpq
            simp [transBlock, hp, hq, transitionEvent_eq]
          · intro hc
            cases hc
          · intro p hp hps
            have hpq : p = q := by
              cases hp
              rfl
            subst hpq
            simp [transBlock, hps]

/-- Witness for C1: a concrete HTTP monitor whose previous status is `up`
and whose probe returns HTTP 500 with notifications enabled dispatches
exactly `[monitor_down]`. -/
def c1Monitor : Monitor :=
  { id := 2, type := "http", url := "http://x.test", interval := 60, name := "h" }

def c1Env : CheckEnv :=
  { httpOutcome := some 500, icmpFails := false, icmpAlive := false, icmpTime := none,
    dnsOk := false, sslCertDates := none, now := 0, notificationsEnabled := true,
    heartbeatFails := false, upsertFails := false, elapsed := 12, elapsedCatch := 13 }

def c1Active : MMap :=
  [(2, { intervalId := 0, monitor := c1Monitor, lastStatus := some Status.up,
         lastSSLNotifiedThreshold := none })]

theorem claim_C1_witness :
    transitionNotifs (checkMonitor c1Monitor none c1Env c1Active) =
      [if c1Monitor.type = "ssl" then
         (if (checkMonitor c1Monitor none c1Env c1Active).status = Status.down then
           NotifyEvent.sslExpired
          else NotifyEvent.sslValid)
       else
         (if (checkMonitor c1Monitor none c1Env c1Active).status = Status.down then
           NotifyEvent.monitorDown
          else NotifyEvent.monitorUp)] :=
  (claim_C1 c1Monitor none c1Env c1Active).2.1 Status.up (by decide) (by decide) (by decide)

/-- The monitor and duration profile exhibiting overlapping checks: a
1-second interval and a probe that takes 2000 ms. -/
def overlapMonitor : Monitor :=
  { id := 1, type := "http", url := "http://example.com", interval := 1, name := "m1" }

def overlapDurations : Nat → Nat := fun _ => 2000

/-- Counterexample to claim C3 as stated: with a 1-second interval and every
probe taking 2000 ms, invocation 1 begins at 1000 ms while invocation 0 is
still in flight until 2000 ms — the timer of `startMonitorLoop` does not
wait for the previous `checkMonitor` invocation to complete. -/
theorem claim_C3_counterexample : ¬ checksNeverOverlap overlapMonitor overlapDurations := by
  intro h
  have h2 := h 0 1 (by decide)
  simp only [checkStartTime, overlapMonitor, overlapDurations] at h2
  omega

/-- Claim C3 (amended): the per-monitor timer of `startMonitorLoop` fires on
a fixed cadence — invocation `k + 1` begins exactly `interval * 1000` ms
after invocation `k`, whether or not invocation `k` has completed — and
whenever a probe's duration exceeds the interval, the next invocation begins
while the prior one is still in flight (the checks overlap). -/
theorem claim_C3 (m : Monitor) (d : Nat → Nat) :
    (∀ k, checkStartTime m (k + 1) = checkStartTime m k + m.interval * 1000)
    ∧ (∀ j, m.interval * 1000 < d j →
        checkStartTime m (j + 1) < checkStartTime m j + d j) := by
  constructor
  · intro k
    simp only [checkStartTime, Nat.succ_mul]
  · intro j hj
    simp only [checkStartTime, Nat.succ_mul]
    omega

theorem claim_C3_witness :
    overlapMonitor.interval * 1000 < overlapDurations 0
    ∧ checkStartTime overlapMonitor (0 + 1) <
        checkStartTime overlapMonitor 0 + overlapDurations 0 :=
  ⟨by decide, (claim_C3 overlapMonitor overlapDurations).2 0 (by decide)⟩

/-- Claim C5: for an HTTP monitor, a response status in [200, 300) yields
`up`, any response status ≥ 300 yields `down`, latency is the elapsed time
measured at completion, and a transport error yields `down` with the elapsed
time measured at failure. -/
theorem claim_C5 (m : Monitor) (sslPrev : Option CertInfo) (env : CheckEnv) (active : MMap)
    (ht : m.type = "http") :
    (∀ s, env.httpOutcome = some s → 200 ≤ s → s < 300 →
        (checkMonitor m sslPrev env active).status = Status.up)
    ∧ (∀ s, env.httpOutcome = some s → 300 ≤ s →
        (checkMonitor m sslPrev env active).status = Status.down)
    ∧ (∀ s, env.httpOutcome = some s →
        (checkMonitor m sslPrev env active).latency = env.elapsed)
    ∧ (env.httpOutcome = none →
        (checkMonitor m sslPrev env active).status = Status.down
        ∧ (checkMonitor m sslPrev env active).latency = env.elapsedCatch) := by
  have hp : ∀ s, env.httpOutcome = some s →
      probeOutcome m sslPrev env =
        ((if 200 ≤ s ∧ s < 300 then Status.up else Status.down), env.elapsed, sslPrev, []) := by
    intro s hs
    unfold probeOutcome probeMonitor
    simp [ht, hs]
  have hn : env.httpOutcome = none →
      probeOutcome m sslPrev env = (Status.down, env.elapsedCatch, sslPrev, []) := by
    intro hs
    unfold probeOutcome probeMonitor
    simp [ht, hs]
  refine ⟨?_, ?_, ?_, ?_⟩
  · intro s hs h1 h2
    rw [checkMonitor_status, hp s hs]
    simp [h1, h2]
  · intro s hs h1
    rw [checkMonitor_status, hp s hs]
    have : ¬ (200 ≤ s ∧ s < 300) := by omega
    simp [this]
  · intro s hs
    rw [checkMonitor_latency, hp s hs]
  · intro hs
    rw [checkMonitor_status, checkMonitor_latency, hn hs]
    exact ⟨rfl, rfl⟩

theorem claim_C5_witness :
    c1Monitor.type = "http"
    ∧ c1Env.httpOutcome = some 500
    ∧ (checkMonitor c1Monitor none c1Env c1Active).status = Status.down :=
  ⟨by decide, by decide,
    (claim_C5 c1Monitor none c1Env c1Active (by decide)).2.1 500 (by decide) (by decide)⟩

/-- Claim C9: a check completing after its monitor's state entry was removed
(monitor deleted, timer cancelled) still appends its heartbeat, dispatches
no transition notification, and leaves the active-monitor-state map exactly
as it found it — in particular it does not re-create the removed entry. -/
theorem claim_C9 (m : Monitor) (sslPrev : Option CertInfo) (env : CheckEnv) (active : MMap)
    (habs : mapGet active m.id = none) (hhb : env.heartbeatFails = false) :
    (checkMonitor m sslPrev env active).heartbeats =
      [(m.id, (checkMonitor m sslPrev env active).status,
        (checkMonitor m sslPrev env active).latency)]
    ∧ transitionNotifs (checkMonitor m sslPrev env active) = []
    ∧ (checkMonitor m sslPrev env active).active = active := by
  refine ⟨?_, ?_, ?_⟩
  · rw [checkMonitor_heartbeats, checkMonitor_status, checkMonitor_latency, hhb]
    simp
  · rw [transitionNotifs_checkMonitor, habs]
    rfl
  · exact checkMonitor_active_none m sslPrev env active habs

theorem claim_C9_witness :
    mapGet [] c1Monitor.id = none
    ∧ (checkMonitor c1Monitor none c1Env []).heartbeats =
        [(c1Monitor.id, (checkMonitor c1Monitor none c1Env []).status,
          (checkMonitor c1Monitor none c1Env []).latency)]
    ∧ transitionNotifs (checkMonitor c1Monitor none c1Env []) = []
    ∧ (checkMonitor c1Monitor none c1Env []).active = [] :=
  ⟨rfl, (claim_C9 c1Monitor none c1Env [] rfl rfl).1,
    (claim_C9 c1Monitor none c1Env [] rfl rfl).2.1,
    (claim_C9 c1Monitor none c1Env [] rfl rfl).2.2⟩

/-- Claim C10: when listing monitors from storage fails, the reconciliation
tick is a no-op — the active map and every running timer are left exactly as
they were, no timer event is emitted, and no error escapes
`refreshMonitors`. -/
theorem claim_C10 (monitors : List Monitor) (st : SchedState) :
    refreshMonitors monitors st true = (st, []) := rfl

theorem probeOutcome_ssl_ok (m : Monitor) (sslPrev : Option CertInfo) (env : CheckEnv)
    (vf vt : Int) (ht : m.type = "ssl") (hd : env.sslCertDates = some (vf, vt))
    (hu : env.upsertFails = false) :
    probeOutcome m sslPrev env =
      ((if (mkCertInfo vf vt env.now).isValid then Status.up else Status.down), env.elapsed,
        some (mkCertInfo vf vt env.now), [(m.id, mkCertInfo vf vt env.now)]) := by
  unfold probeOutcome probeMonitor
  simp [ht, hd, hu]

theorem probeOutcome_ssl_err (m : Monitor) (sslPrev : Option CertInfo) (env : CheckEnv)
    (ht : m.type = "ssl") (h : env.sslCertDates = none ∨ env.upsertFails = true) :
    probeOutcome m sslPrev env = (Status.down, env.elapsedCatch, sslPrev, []) := by
  unfold probeOutcome probeMonitor
  rcases h with h | h
  · simp [ht, h]
  · cases hd : env.sslCertDates with
    | none => simp [ht, hd]
    | some d => simp [ht, hd, h]

/-- The SSL monitor used in the C4 scenarios. -/
def c4Monitor : Monitor :=
  { id := 3, type := "ssl", url := "ssl4.test", interval := 60, name := "s3" }

/-- An environment in which the SSL probe retrieves a certificate that is 25
days from expiry and fully valid, with notifications on and both storage
writes succeeding. -/
def c4Env : CheckEnv :=
  { httpOutcome := none, icmpFails := false, icmpAlive := false, icmpTime := none,
    dnsOk := false, sslCertDates := some (-3, 25 * msPerDay), now := 0,
    notificationsEnabled := true, heartbeatFails := false, upsertFails := false,
    elapsed := 9, elapsedCatch := 17 }

def c4Active : MMap :=
  [(3, { intervalId := 5, monitor := c4Monitor, lastStatus := some Status.up,
         lastSSLNotifiedThreshold := none })]

/-- Counterexample to claim C4 as stated: with identical probe data (a valid
certificate, previous status `up`, notifications enabled), the check with a
succeeding certificate upsert computes status `up`, but the same check with
a failing certificate upsert computes status `down` — the computed status is
not "used unchanged when the durable write failed"; worse, the storage
hiccup dispatches a spurious `ssl_expired` transition notification. -/
theorem claim_C4_counterexample :
    (mkCertInfo (-3) (25 * msPerDay) 0).isValid = true
    ∧ (checkMonitor c4Monitor none c4Env c4Active).status = Status.up
    ∧ (checkMonitor c4Monitor none { c4Env with upsertFails := true } c4Active).status =
        Status.down
    ∧ (checkMonitor c4Monitor none { c4Env with upsertFails := true } c4Active).notifications =
        [NotifyEvent.sslExpired] := by decide

/-- Claim C4 (amended): a heartbeat-append failure is swallowed — the check
behaves identically except that no heartbeat row is durably appended: same
status, same notifications, same state-map update.  A failure of the SSL
certificate-snapshot upsert is also caught inside `checkMonitor` (it never
propagates), but it is caught by the generic probe-failure handler, which
discards the computed certificate validity: the check's status becomes
`down`, no snapshot is persisted, the latency is re-measured in the catch
block, and `monitor._sslCertInfo` keeps its previous value. -/
theorem claim_C4 :
    (∀ (m : Monitor) (sslPrev : Option CertInfo) (env : CheckEnv) (active : MMap),
      (checkMonitor m sslPrev { env with heartbeatFails := true } active).heartbeats = []
      ∧ (checkMonitor m sslPrev { env with heartbeatFails := false } active).heartbeats =
          [(m.id, (checkMonitor m sslPrev { env with heartbeatFails := false } active).status,
            (checkMonitor m sslPrev { env with heartbeatFails := false } active).latency)]
      ∧ (checkMonitor m sslPrev { env with heartbeatFails := true } active).status =
          (checkMonitor m sslPrev { env with heartbeatFails := false } active).status
      ∧ (checkMonitor m sslPrev { env with heartbeatFails := true } active).notifications =
          (checkMonitor m sslPrev { env with heartbeatFails := false } active).notifications
      ∧ (checkMonitor m sslPrev { env with heartbeatFails := true } active).active =
          (checkMonitor m sslPrev { env with heartbeatFails := false } active).active)
    ∧ (∀ (m : Monitor) (sslPrev : Option CertInfo) (env : CheckEnv) (active : MMap)
        (d : Int × Int), m.type = "ssl" → env.sslCertDates = some d → env.upsertFails = true →
        (checkMonitor m sslPrev env active).status = Status.down
        ∧ (checkMonitor m sslPrev env active).upserts = []
        ∧ (checkMonitor m sslPrev env active).latency = env.elapsedCatch
        ∧ (checkMonitor m sslPrev env active).sslCertInfo = sslPrev) := by
  constructor
  · intro m sslPrev env active
    exact ⟨rfl, rfl, rfl, rfl, rfl⟩
  · intro m sslPrev env active d ht hd hu
    have he := probeOutcome_ssl_err m sslPrev env ht (Or.inr hu)
    rw [checkMonitor_status, checkMonitor_upserts, checkMonitor_latency,
      checkMonitor_sslCertInfo, he]
    exact ⟨rfl, rfl, rfl, rfl⟩

theorem claim_C4_witness :
    c4Monitor.type = "ssl"
    ∧ ({ c4Env with upsertFails := true } : CheckEnv).sslCertDates = some (-3, 25 * msPerDay)
    ∧ (checkMonitor c4Monitor none { c4Env with upsertFails := true } c4Active).status =
        Status.down
    ∧ (checkMonitor c4Monitor none { c4Env with upsertFails := true } c4Active).upserts = [] :=
  ⟨rfl, rfl,
    (claim_C4.2 c4Monitor none { c4Env with upsertFails := true } c4Active
      (-3, 25 * msPerDay) rfl rfl rfl).1,
    (claim_C4.2 c4Monitor none { c4Env with upsertFails := true } c4Active
      (-3, 25 * msPerDay) rfl rfl rfl).2.1⟩

/-- The SSL monitor used in the C6 scenarios. -/
def c6Monitor : Monitor :=
  { id := 4, type := "ssl", url := "ssl6.test", interval := 30, name := "s6" }

/-- A certificate 40 days from expiry is retrieved, but the snapshot upsert
throws. -/
def c6Env : CheckEnv :=
  { httpOutcome := none, icmpFails := false, icmpAlive := false, icmpTime := none,
    dnsOk := false, sslCertDates := some (-7, 40 * msPerDay), now := 0,
    notificationsEnabled := false, heartbeatFails := false, upsertFails := true,
    elapsed := 4, elapsedCatch := 6 }

/-- Counterexample to claim C6 as stated: an SSL check in which a
certificate is retrieved and `isValid = true`, yet the status is `down`,
because the certificate-snapshot upsert threw after retrieval and the
generic catch handler forced the check down.  So "status is up iff isValid"
does not hold for every SSL check in which a certificate is retrieved. -/
theorem claim_C6_counterexample :
    c6Env.sslCertDates = some (-7, 40 * msPerDay)
    ∧ (mkCertInfo (-7) (40 * msPerDay) c6Env.now).isValid = true
    ∧ (checkMonitor c6Monitor none c6Env []).status = Status.down := by decide

/-- Claim C6 (amended): for every SSL check in which a certificate is
retrieved and the snapshot upsert does not throw:
`daysRemaining = floor((validTo - now) / 86400s)`,
`isValid = (now ∈ [validFrom, validTo] ∧ daysRemaining > 0)`, and the
check's status is up iff `isValid`.  A connection failure, timeout or absent
certificate yields status down — and so does a throwing snapshot upsert,
even when the retrieved certificate was valid. -/
theorem claim_C6 (m : Monitor) (sslPrev : Option CertInfo) (env : CheckEnv) (active : MMap)
    (ht : m.type = "ssl") :
    (∀ vf vt, env.sslCertDates = some (vf, vt) → env.upsertFails = false →
      (checkMonitor m sslPrev env active).sslCertInfo = some (mkCertInfo vf vt env.now)
      ∧ (mkCertInfo vf vt env.now).daysRemaining = Int.fdiv (vt - env.now) msPerDay
      ∧ ((mkCertInfo vf vt env.now).isValid = true ↔
          (vf ≤ env.now ∧ env.now ≤ vt ∧ 0 < Int.fdiv (vt - env.now) msPerDay))
      ∧ ((checkMonitor m sslPrev env active).status = Status.up ↔
          (mkCertInfo vf vt env.now).isValid = true))
    ∧ (env.sslCertDates = none → (checkMonitor m sslPrev env active).status = Status.down)
    ∧ (env.upsertFails = true → (checkMonitor m sslPrev env active).status = Status.down) := by
  refine ⟨?_, ?_, ?_⟩
  · intro vf vt hd hu
    have hpo := probeOutcome_ssl_ok m sslPrev env vf vt ht hd hu
    refine ⟨?_, rfl, ?_, ?_⟩
    · rw [checkMonitor_sslCertInfo, hpo]
    · simp [mkCertInfo, Bool.and_eq_true, decide_eq_true_iff, and_assoc]
    · rw [checkMonitor_status, hpo]
      cases hv : (mkCertInfo vf vt env.now).isValid <;> simp [hv]
  · intro hd
    rw [checkMonitor_status, probeOutcome_ssl_err m sslPrev env ht (Or.inl hd)]
  · intro hu
    rw [checkMonitor_status, probeOutcome_ssl_err m sslPrev env ht (Or.inr hu)]

theorem escalationBlock_ssl_up (en : Bool) (info : CertInfo) (lastT : Option Nat)
    (hen : en = true) :
    escalationBlock "ssl" Status.up en (some info) lastT =
      (match sslThresholds.find? (fun u =>
          decide (info.daysRemaining ≤ Int.ofNat u) && decide (lastT.getD 0 < u)) with
       | some t => (some t, [NotifyEvent.sslExpiring info.daysRemaining])
       | none => (none, [])) := by
  unfold escalationBlock
  simp [hen]

/-- The SSL monitor of the C2 escalation scenario. -/
def c2Monitor : Monitor :=
  { id := 1, type := "ssl", url := "example.com", interval := 60, name := "s" }

def c2Entry : MonitorEntry :=
  { intervalId := 0, monitor := c2Monitor, lastStatus := some Status.up,
    lastSSLNotifiedThreshold := none }

def c2Active : MMap := [(1, c2Entry)]

/-- First check: the certificate is 25 days from expiry and valid. -/
def c2EnvA : CheckEnv :=
  { httpOutcome := none, icmpFails := false, icmpAlive := false, icmpTime := none,
    dnsOk := false, sslCertDates := some (-5, 25 * msPerDay), now := 0,
    notificationsEnabled := true, heartbeatFails := false, upsertFails := false,
    elapsed := 10, elapsedCatch := 11 }

/-- Second check: the certificate is now 12 days from expiry. -/
def c2EnvB : CheckEnv := { c2EnvA with sslCertDates := some (-5, 12 * msPerDay) }

def c2Run1 : CheckResult := checkMonitor c2Monitor none c2EnvA c2Active

/-- Claim C2: for every SSL check with a valid retrieved certificate,
notifications enabled and an active state entry, scanning `[30, 14, 7, 3, 1]`
in order, an `ssl_expiring` dispatch carrying `daysRemaining` fires for the
first threshold `t` with `daysRemaining ≤ t` and `lastNotifiedThreshold < t`,
the watermark is set to `t` and scanning stops (at most one escalation per
check); when no threshold qualifies nothing fires and the watermark is
unchanged.  Concretely: from watermark 0 with `daysRemaining = 25` exactly
one `ssl_expiring` fires and the watermark becomes 30, and the subsequent
check at `daysRemaining = 12` fires none. -/
theorem claim_C2 :
    (∀ (m : Monitor) (sslPrev : Option CertInfo) (env : CheckEnv) (active : MMap)
        (entry : MonitorEntry) (vf vt : Int),
      m.type = "ssl" → env.sslCertDates = some (vf, vt) → env.upsertFails = false →
      (mkCertInfo vf vt env.now).isValid = true → env.notificationsEnabled = true →
      mapGet active m.id = some entry →
      ((checkMonitor m sslPrev env active).status = Status.up
       ∧ (∀ t, sslThresholds.find? (fun u =>
              decide ((mkCertInfo vf vt env.now).daysRemaining ≤ Int.ofNat u)
                && decide (entry.lastSSLNotifiedThreshold.getD 0 < u)) = some t →
           expiringNotifs (checkMonitor m sslPrev env active) =
             [NotifyEvent.sslExpiring (mkCertInfo vf vt env.now).daysRemaining]
           ∧ mapGet (checkMonitor m sslPrev env active).active m.id =
               some { entry with lastSSLNotifiedThreshold := some t, lastStatus := some Status.up })
       ∧ (sslThresholds.find? (fun u =>
              decide ((mkCertInfo vf vt env.now).daysRemaining ≤ Int.ofNat u)
                && decide (entry.lastSSLNotifiedThreshold.getD 0 < u)) = none →
           expiringNotifs (checkMonitor m sslPrev env active) = []
           ∧ mapGet (checkMonitor m sslPrev env active).active m.id =
               some { entry with lastStatus := some Status.up })
       ∧ (expiringNotifs (checkMonitor m sslPrev env active)).length ≤ 1))
    ∧ expiringNotifs c2Run1 = [NotifyEvent.sslExpiring 25]
    ∧ mapGet c2Run1.active 1 =
        some { intervalId := 0, monitor := c2Monitor, lastStatus := some Status.up,
               lastSSLNotifiedThreshold := some 30 }
    ∧ expiringNotifs (checkMonitor c2Monitor c2Run1.sslCertInfo c2EnvB c2Run1.active) = [] := by
  refine ⟨?_, by decide, by decide, by decide⟩
  intro m sslPrev env active entry vf vt ht hd hu hv hen hentry
  have hpo := probeOutcome_ssl_ok m sslPrev env vf vt ht hd hu
  have hstat : (checkMonitor m sslPrev env active).status = Status.up := by
    rw [checkMonitor_status, hpo]
    simp [hv]
  have hesc : escalationBlock m.type (probeOutcome m sslPrev env).1 env.notificationsEnabled
      (probeOutcome m sslPrev env).2.2.1
      ((mapGet active m.id).bind (fun d => d.lastSSLNotifiedThreshold)) =
      (match sslThresholds.find? (fun u =>
          decide ((mkCertInfo vf vt env.now).daysRemaining ≤ Int.ofNat u)
            && decide (entry.lastSSLNotifiedThreshold.getD 0 < u)) with
       | some t => (some t, [NotifyEvent.sslExpiring (mkCertInfo vf vt env.now).daysRemaining])
       | none => (none, [])) := by
    rw [hpo, ht, hentry]
    simp only [hv, if_true, Option.bind_some]
    exact escalationBlock_ssl_up env.notificationsEnabled (mkCertInfo vf vt env.now)
      entry.lastSSLNotifiedThreshold hen
  have hexp := expiringNotifs_checkMonitor m sslPrev env active
  rw [hesc] at hexp
  have hact := checkMonitor_active_some m sslPrev env active entry hentry
  refine ⟨hstat, ?_, ?_, ?_⟩
  · intro t hf
    rw [hf] at hexp
    constructor
    · exact hexp
    · rw [hact, mapGet_mapModify_self]
      simp only [hesc, hf]
      rw [hentry, hpo]
      simp [hv]
  · intro hf
    rw [hf] at hexp
    constructor
    · exact hexp
    · rw [hact, mapGet_mapModify_self]
      simp only [hesc, hf]
      rw [hentry, hpo]
      simp [hv]
  · cases hf : sslThresholds.find? (fun u =>
        decide ((mkCertInfo vf vt env.now).daysRemaining ≤ Int.ofNat u)
          && decide (entry.lastSSLNotifiedThreshold.getD 0 < u)) <;>
      rw [hf] at hexp <;> simp [hexp]

theorem claim_C2_witness :
    expiringNotifs (checkMonitor c2Monitor none c2EnvA c2Active) =
      [NotifyEvent.sslExpiring (mkCertInfo (-5) (25 * msPerDay) c2EnvA.now).daysRemaining]
    ∧ mapGet (checkMonitor c2Monitor none c2EnvA c2Active).active c2Monitor.id =
        some { c2Entry with lastSSLNotifiedThreshold := some 30, lastStatus := some Status.up } :=
  (claim_C2.1 c2Monitor none c2EnvA c2Active c2Entry (-5) (25 * msPerDay) rfl rfl rfl
    (by decide) rfl (by decide)).2.1 30 (by decide)

theorem refreshMonitors_ok_eq (monitors : List Monitor) (st : SchedState) :
    refreshMonitors monitors st false =
      ((refreshAdd
          { st with active :=
              st.active.filter (fun p => p.1 ∈ monitors.map (fun m => m.id)) } monitors).1,
       ((st.active.filter (fun p => ¬ p.1 ∈ monitors.map (fun m => m.id))).map
           (fun p => SchedEvent.timerCancelled p.2.intervalId))
         ++ (refreshAdd
          { st with active :=
              st.active.filter (fun p => p.1 ∈ monitors.map (fun m => m.id)) } monitors).2) :=
  rfl

theorem startsFor_cancelList (id : Nat) (l : MMap) :
    startsFor id (l.map (fun p => SchedEvent.timerCancelled p.2.intervalId)) = 0 := by
  induction l with
  | nil => rfl
  | cons p rest ih => simpa [startsFor, List.filter_cons] using ih

theorem checksFor_cancelList (id : Nat) (l : MMap) :
    checksFor id (l.map (fun p => SchedEvent.timerCancelled p.2.intervalId)) = 0 := by
  induction l with
  | nil => rfl
  | cons p rest ih => simpa [checksFor, List.filter_cons] using ih

/-- Claim C7: after a reconciliation tick in which listing succeeds (and the
listed ids are distinct, as storage primary keys are), the key set of the
active map equals the listed id set; each id new to the map gets exactly one
started timer and one immediate check, with `lastStatus` unknown and no SSL
watermark; each entry whose id is no longer listed has its timer cancelled;
and running reconciliation again on the same list changes nothing and emits
no timer events. -/
theorem claim_C7 (monitors : List Monitor) (st : SchedState)
    (hnd : (monitors.map (fun m => m.id)).Nodup) :
    (∀ k, (mapGet (refreshMonitors monitors st false).1.active k).isSome = true ↔
        k ∈ monitors.map (fun m => m.id))
    ∧ (∀ m ∈ monitors, mapGet st.active m.id = none →
        (∃ tid, mapGet (refreshMonitors monitors st false).1.active m.id =
            some { intervalId := tid, monitor := m, lastStatus := none,
                   lastSSLNotifiedThreshold := none })
        ∧ startsFor m.id (refreshMonitors monitors st false).2 = 1
        ∧ checksFor m.id (refreshMonitors monitors st false).2 = 1)
    ∧ (∀ p ∈ st.active, p.1 ∉ monitors.map (fun m => m.id) →
        SchedEvent.timerCancelled p.2.intervalId ∈ (refreshMonitors monitors st false).2)
    ∧ refreshMonitors monitors (refreshMonitors monitors st false).1 false =
        ((refreshMonitors monitors st false).1, []) := by
  set ids := monitors.map (fun m => m.id) with hids
  set st1 : SchedState := { st with active := st.active.filter (fun p => p.1 ∈ ids) }
    with hst1
  have hEq : refreshMonitors monitors st false =
      ((refreshAdd st1 monitors).1,
       ((st.active.filter (fun p => ¬ p.1 ∈ ids)).map
           (fun p => SchedEvent.timerCancelled p.2.intervalId))
         ++ (refreshAdd st1 monitors).2) := rfl
  have hst1active : st1.active = st.active.filter (fun p => p.1 ∈ ids) := rfl
  have ha : ∀ k, (mapGet (refreshMonitors monitors st false).1.active k).isSome = true ↔
      k ∈ ids := by
    intro k
    rw [hEq]
    by_cases hk : k ∈ ids
    · simp only [hk, iff_true]
      obtain ⟨m, hm, hmk⟩ := List.mem_map.mp hk
      obtain ⟨e, he, _⟩ := refreshAdd_get_matches monitors st1 m hnd hm
      rw [← hmk, he]
      rfl
    · simp only [hk, iff_false]
      have hne : ∀ m ∈ monitors, m.id ≠ k := fun m hm heq =>
        hk (heq ▸ List.mem_map_of_mem _ hm)
      rw [refreshAdd_get_ne monitors st1 k hne, hst1active,
        mapGet_filterKeys_not_mem st.active ids k hk]
      simp
  refine ⟨ha, ?_, ?_, ?_⟩
  · intro m hm habs
    have hmem : m.id ∈ ids := List.mem_map_of_mem _ hm
    have habs1 : mapGet st1.active m.id = none := by
      rw [hst1active, mapGet_filterKeys_mem st.active ids m.id hmem, habs]
    obtain ⟨⟨tid, hget⟩, hs1, hc1⟩ := refreshAdd_fresh monitors st1 m hnd hm habs1
    rw [hEq]
    refine ⟨⟨tid, hget⟩, ?_, ?_⟩
    · rw [startsFor_append, startsFor_cancelList, hs1]
    · rw [checksFor_append, checksFor_cancelList, hc1]
  · intro p hp hpk
    rw [hEq]
    apply List.mem_append_left
    apply List.mem_map_of_mem
    exact List.mem_filter.mpr ⟨hp, by simpa using hpk⟩
  · have hsub : ∀ p ∈ (refreshMonitors monitors st false).1.active, p.1 ∈ ids := by
      intro p hp
      exact (ha p.1).mp (mem_mapGet_isSome _ p hp)
    have hfs : (refreshMonitors monitors st false).1.active.filter
        (fun p => p.1 ∈ ids) = (refreshMonitors monitors st false).1.active := by
      rw [List.filter_eq_self]
      intro p hp
      simpa using hsub p hp
    have hfn : (refreshMonitors monitors st false).1.active.filter
        (fun p => ¬ p.1 ∈ ids) = [] := by
      rw [List.filter_eq_nil_iff]
      intro p hp
      simpa using hsub p hp
    have hmatch : ∀ m ∈ monitors,
        ∃ e, mapGet (refreshMonitors monitors st false).1.active m.id = some e
          ∧ entryMatches e m := by
      intro m hm
      rw [hEq]
      exact refreshAdd_get_matches monitors st1 m hnd hm
    have hnoop := refreshAdd_noop monitors (refreshMonitors monitors st false).1 hmatch
    rw [refreshMonitors_ok_eq monitors (refreshMonitors monitors st false).1]
    rw [← hids, hfs, hfn]
    have heta : ({ (refreshMonitors monitors st false).1 with
        active := (refreshMonitors monitors st false).1.active } : SchedState) =
        (refreshMonitors monitors st false).1 := rfl
    rw [heta, hnoop]
    rfl

def c7Monitor : Monitor :=
  { id := 7, type := "dns", url := "dns.test", interval := 15, name := "d7" }

def c7St : SchedState := { active := [], nextTimerId := 0 }

theorem claim_C7_witness :
    (∃ tid, mapGet (refreshMonitors [c7Monitor] c7St false).1.active c7Monitor.id =
        some { intervalId := tid, monitor := c7Monitor, lastStatus := none,
               lastSSLNotifiedThreshold := none })
    ∧ startsFor c7Monitor.id (refreshMonitors [c7Monitor] c7St false).2 = 1
    ∧ checksFor c7Monitor.id (refreshMonitors [c7Monitor] c7St false).2 = 1 :=
  (claim_C7 [c7Monitor] c7St (by simp)).2.1 c7Monitor (by simp) rfl

/-- Claim C8: when reconciliation finds an active monitor whose `interval`,
`url` or `type` differs from the stored snapshot, it cancels the existing
timer and starts a new loop at the new interval; the replacement state entry
carries `lastStatus` forward unchanged and resets the SSL notification
watermark (the fresh entry has no `lastSSLNotifiedThreshold` property, read
as 0).  When none of the three fields changed, the state and the timers are
left untouched and no event is emitted. -/
theorem claim_C8 (st : SchedState) (m : Monitor) (cur : MonitorEntry)
    (h : mapGet st.active m.id = some cur) :
    (¬ entryMatches cur m →
      processMonitor st m =
        ({ active := mapSet st.active m.id
             { intervalId := st.nextTimerId, monitor := m, lastStatus := cur.lastStatus,
               lastSSLNotifiedThreshold := none }
           nextTimerId := st.nextTimerId + 1 },
         [SchedEvent.timerCancelled cur.intervalId, SchedEvent.immediateCheck m.id,
          SchedEvent.timerStarted st.nextTimerId m.id m.interval]))
    ∧ (entryMatches cur m → processMonitor st m = (st, [])) := by
  constructor
  · intro hm
    unfold processMonitor startMonitorLoop
    rw [h]
    simp [hm]
  · intro hm
    exact processMonitor_noop st m cur h hm

def c8OldMonitor : Monitor :=
  { id := 8, type := "http", url := "http://old.test", interval := 60, name := "m8" }

def c8NewMonitor : Monitor :=
  { id := 8, type := "http", url := "http://old.test", interval := 10, name := "m8" }

def c8St : SchedState :=
  { active := [(8, { intervalId := 7, monitor := c8OldMonitor, lastStatus := some Status.down,
                     lastSSLNotifiedThreshold := some 30 })],
    nextTimerId := 9 }

theorem claim_C8_witness :
    processMonitor c8St c8NewMonitor =
      ({ active := mapSet c8St.active c8NewMonitor.id
           { intervalId := c8St.nextTimerId, monitor := c8NewMonitor,
             lastStatus := some Status.down, lastSSLNotifiedThreshold := none }
         nextTimerId := c8St.nextTimerId + 1 },
       [SchedEvent.timerCancelled 7, SchedEvent.immediateCheck c8NewMonitor.id,
        SchedEvent.timerStarted c8St.nextTimerId c8NewMonitor.id c8NewMonitor.interval]) :=
  (claim_C8 c8St c8NewMonitor
    { intervalId := 7, monitor := c8OldMonitor, lastStatus := some Status.down,
      lastSSLNotifiedThreshold := some 30 } rfl).1 (by decide)

theorem claim_C6_witness :
    (checkMonitor c4Monitor none c4Env c4Active).sslCertInfo =
      some (mkCertInfo (-3) (25 * msPerDay) c4Env.now)
    ∧ ((checkMonitor c4Monitor none c4Env c4Active).status = Status.up ↔
        (mkCertInfo (-3) (25 * msPerDay) c4Env.now).isValid = true) :=
  ⟨((claim_C6 c4Monitor none c4Env c4Active rfl).1 (-3) (25 * msPerDay) rfl rfl).1,
    ((claim_C6 c4Monitor none c4Env c4Active rfl).1 (-3) (25 * msPerDay) rfl rfl).2.2.2⟩

end UptimeKit
